import Mathlib

/-!
Verification of the MQTT gateway's authorization and routing core

Shallow embedding of `app.js`: the in-memory authorized-device registry,
the topic access-control decisions installed on the broker, and the
publish-routing pipeline, together with proofs of the specified
properties.

Conventions of the embedding:
* A JavaScript device record is modelled by `Device`: its optional `_id`
  string field plus a count of its other own enumerable fields (only
  emptiness of the record matters to the code, never the other fields
  themselves).
* The gateway's plain-object maps (`authorizedDevices`, the `keyBy`
  result over authorized topics) are association lists with unique keys;
  property lookup that misses yields `none` (JavaScript `undefined`).
* `lodash.isempty` semantics are reproduced by the `isEmpty*` functions:
  `undefined`/`null`, numbers and booleans are empty; strings, arrays and
  objects are empty when they have no characters / elements / own keys.
* Side effects on the platform (log, handleException, processData, ...)
  are reified as an ordered `List Effect` returned by each handler.
-/

/-- A JavaScript device record: the optional `_id` field and the number of
its other own enumerable fields. -/
structure Device where
  id : Option String
  extraFields : Nat
deriving Repr, DecidableEq

/-- Semantics of `lodash.isempty` on a device record: an object is empty when it has no
own enumerable keys, so the record is empty iff `_id` is absent and there
are no other fields.  (`null`/`undefined` records are represented by the
record with no fields at all, which behaves identically under every
operation the code performs on them.) -/
def isEmptyDevice (d : Device) : Bool :=
  d.id.isNone && d.extraFields == 0

/-- Semantics of `lodash.isempty` on the `_id` field of a record: an absent field
(`undefined`) is empty, a string field is empty iff it has no characters. -/
def isEmptyIdField (v : Option String) : Bool :=
  match v with
  | none => true
  | some s => s == ""

/-- The validity test guarding `adddevice` / `removedevice`:
`!isEmpty(device) && !isEmpty(device._id)`. -/
def validDevice (d : Device) : Bool :=
  !isEmptyDevice d && !isEmptyIdField d.id

/-- JavaScript property-key coercion used by `keyBy(records, '_id')`: a
missing `_id` becomes the property key `"undefined"`. -/
def keyOfRecord (d : Device) : String :=
  match d.id with
  | none => "undefined"
  | some s => s

/-- First-match association-list lookup, modelling property access on a
unique-keyed plain object (`obj[k]`, `undefined` mapped to `none`). -/
def assocLookup {α : Type} : List (String × α) → String → Option α
  | [], _ => none
  | (k, v) :: rest, key => if k == key then some v else assocLookup rest key

/-- Property assignment `obj[k] = v` on a unique-keyed plain object:
overwrite in place when the key exists, append otherwise. -/
def assocInsert {α : Type} : List (String × α) → String → α → List (String × α)
  | [], key, v => [(key, v)]
  | (k, w) :: rest, key, v =>
    if k == key then (key, v) :: rest else (k, w) :: assocInsert rest key v

/-- Deletion `delete obj[k]` on a unique-keyed plain object. -/
def assocErase {α : Type} : List (String × α) → String → List (String × α)
  | [], _ => []
  | (k, w) :: rest, key =>
    if k == key then assocErase rest key else (k, w) :: assocErase rest key

/-- The `authorizedDevices` map: device records keyed by `_id`. -/
abbrev Registry := List (String × Device)

/-- The registry-membership check the code performs everywhere:
`!isEmpty(authorizedDevices[id])`. -/
def isAuthorizedDevice (reg : Registry) (id : String) : Bool :=
  match assocLookup reg id with
  | none => false
  | some d => !isEmptyDevice d

/-- Specification-level presence in the Device Registry: the id has an
entry. -/
def deviceRegistered (reg : Registry) (id : String) : Bool :=
  (assocLookup reg id).isSome

/-- Well-formedness of a registry state: every stored record is a
non-empty object.  Every state reachable through `adddevice` /
`removedevice` from the initial empty registry satisfies this, since the
add handler only stores records that carry an `_id` key. -/
def RegistryWF (reg : Registry) : Bool :=
  reg.all (fun p => !isEmptyDevice p.2)

/-- The `keyBy(uniq(...))` object holding the authorized topics: each
topic string keyed by itself. -/
def keyByIdentity (topics : List String) : List (String × String) :=
  topics.map (fun t => (t, t))

/-- The topic-set membership check the code performs:
`!isEmpty(authorizedTopics[topic])` — a missing key (`undefined`) and the
empty-string value are both `isempty`. -/
def topicObjAuthorized (obj : List (String × String)) (topic : String) : Bool :=
  match assocLookup obj topic with
  | none => false
  | some v => !(v == "")

/-- A parsed JSON value, as produced by `JSON.parse`. -/
inductive Json where
  | null
  | bool (b : Bool)
  | num (n : Int)
  | str (s : String)
  | arr (items : List Json)
  | obj (fields : List (String × Json))
deriving Repr

/-- Semantics of `lodash.isempty` on a parsed JSON value: `null`, booleans and numbers
are empty; strings, arrays and objects are empty when they have no
characters / elements / keys. -/
def isEmptyJson (j : Json) : Bool :=
  match j with
  | .null => true
  | .bool _ => true
  | .num _ => true
  | .str s => s == ""
  | .arr items => items.isEmpty
  | .obj fields => fields.isEmpty

/-- JavaScript member access `j.k` on a non-`null` parsed value: a field
of an object, `undefined` (i.e. `none`) on anything else.  (Access on
`null` throws a TypeError; the routing pipeline below models that case
separately.) -/
def getField (j : Json) (key : String) : Option Json :=
  match j with
  | .obj fields => assocLookup fields key
  | _ => none

/-- The `isEmpty(msg.target)`-style check: a missing field is empty, a
present field is empty per `isEmptyJson`. -/
def fieldEmpty (j : Json) (key : String) : Bool :=
  match getField j key with
  | none => true
  | some v => isEmptyJson v

/-- Whether a parsed value is JSON `null` (member access on it throws). -/
def isNullJson : Json → Bool
  | .null => true
  | _ => false

/-- Reified platform / broker side effects, in the order the code issues
them.  `publish` is the broker primitive with its qos, retain flag and
optional message id; audit-log payloads are abbreviated to a stable
summary of the `JSON.stringify` record the code emits. -/
inductive Effect where
  | log (record : String)
  | handleException (message : String)
  | processData (clientId : String) (rawPayload : String)
  | sendMessageToDevice (target : Json) (message : Json)
  | sendMessageToGroup (target : Json) (message : Json)
  | publish (topic : String) (payload : String) (qos : Int) (retain : Bool) (messageId : Option String)
  | sendMessageResponse (messageId : String) (status : String)
deriving Repr

/-- The hook `server.authorizePublish` (the decision and the effects it emits):
`!isEmpty(authorizedDevices[client.id]) || topic === client.id ||
!isEmpty(authorizedTopics[topic])`, reporting a denial before returning
the boolean. -/
def authorizePublish (reg : Registry) (topicsObj : List (String × String))
    (clientId topic : String) : Bool × List Effect :=
  let isAuthorized :=
    isAuthorizedDevice reg clientId || topic == clientId || topicObjAuthorized topicsObj topic
  (isAuthorized,
    if isAuthorized then []
    else [Effect.handleException
      ("Device " ++ clientId ++ " is not authorized to publish to topic " ++ topic ++ ". Device not registered.")])

/-- The hook `server.authorizeSubscribe`: the same predicate; the source computes
it once for the denial report and once more for the returned value. -/
def authorizeSubscribe (reg : Registry) (topicsObj : List (String × String))
    (clientId topic : String) : Bool × List Effect :=
  let isAuthorized :=
    isAuthorizedDevice reg clientId || topic == clientId || topicObjAuthorized topicsObj topic
  (isAuthorizedDevice reg clientId || topic == clientId || topicObjAuthorized topicsObj topic,
    if isAuthorized then []
    else [Effect.handleException
      ("Device " ++ clientId ++ " is not authorized to subscribe to topic " ++ topic ++ ". Device not registered.")])

/-- The hook `server.authorizeForward`: only registry membership; the topic object
and the packet are in scope but never consulted. -/
def authorizeForward (reg : Registry) (_topicsObj : List (String × String))
    (clientId : String) (_packet : String) : Bool × List Effect :=
  let isAuthorized := isAuthorizedDevice reg clientId
  (isAuthorizedDevice reg clientId,
    if isAuthorized then []
    else [Effect.handleException
      ("Device " ++ clientId ++ " is not authorized to forward messages. Device not registered.")])

theorem assocLookup_mem {α : Type} (l : List (String × α)) (key : String) (v : α)
    (h : assocLookup l key = some v) : (key, v) ∈ l := by
  induction l with
  | nil => simp [assocLookup] at h
  | cons p rest ih =>
    obtain ⟨k, w⟩ := p
    by_cases hk : k == key
    · simp [assocLookup, hk] at h
      subst h
      simp_all
    · simp [assocLookup, hk] at h
      exact List.mem_cons_of_mem _ (ih h)

theorem isAuthorizedDevice_of_wf (reg : Registry) (id : String)
    (hwf : RegistryWF reg = true) :
    isAuthorizedDevice reg id = deviceRegistered reg id := by
  unfold isAuthorizedDevice deviceRegistered
  cases hlk : assocLookup reg id with
  | none => simp
  | some d =>
    have hmem := assocLookup_mem reg id d hlk
    have := (List.all_eq_true.mp hwf) _ hmem
    simp_all

theorem topicObjAuthorized_keyByIdentity (topics : List String) (t : String) :
    topicObjAuthorized (keyByIdentity topics) t = (topics.contains t && !(t == "")) := by
  induction topics with
  | nil => simp [topicObjAuthorized, keyByIdentity, assocLookup]
  | cons x rest ih =>
    by_cases hx : x = t
    · subst hx
      simp [topicObjAuthorized, keyByIdentity, assocLookup]
    · have hx1 : (x == t) = false := by simpa using hx
      have hx2 : (t == x) = false := by simpa using Ne.symm hx
      have hcont : ((x :: rest).contains t) = rest.contains t := by
        simp only [List.contains_cons, hx2, Bool.false_or]
      calc topicObjAuthorized (keyByIdentity (x :: rest)) t
          = topicObjAuthorized (keyByIdentity rest) t := by
            simp [topicObjAuthorized, keyByIdentity, assocLookup, hx1]
        _ = (rest.contains t && !(t == "")) := ih
        _ = ((x :: rest).contains t && !(t == "")) := by rw [hcont]

/-- The `adddevice` handler: on a valid record, store it under its `_id`;
otherwise report the validation failure and leave the registry alone. -/
def adddevice (reg : Registry) (d : Device) : Registry × List Effect :=
  if validDevice d then
    (assocInsert reg (keyOfRecord d) d,
      [Effect.log ("Successfully added " ++ keyOfRecord d ++ " to the pool of authorized devices.")])
  else
    (reg, [Effect.handleException "Device data invalid. Device not added."])

/-- The `removedevice` handler: on a valid record, delete its `_id` key;
otherwise report the validation failure and leave the registry alone. -/
def removedevice (reg : Registry) (d : Device) : Registry × List Effect :=
  if validDevice d then
    (assocErase reg (keyOfRecord d),
      [Effect.log ("Successfully removed " ++ keyOfRecord d ++ " from the pool of authorized devices.")])
  else
    (reg, [Effect.handleException "Device data invalid. Device not removed."])

/-- A registry-mutation event from the platform. -/
inductive DeviceEvent where
  | add (d : Device)
  | remove (d : Device)
deriving Repr, DecidableEq

/-- The device record carried by an event. -/
def eventDevice : DeviceEvent → Device
  | .add d => d
  | .remove d => d

/-- Whether an event is an add. -/
def isAddEvent : DeviceEvent → Bool
  | .add _ => true
  | .remove _ => false

/-- Dispatch one platform event to the matching handler. -/
def applyDeviceEvent (reg : Registry) (e : DeviceEvent) : Registry × List Effect :=
  match e with
  | .add d => adddevice reg d
  | .remove d => removedevice reg d

/-- Run a sequence of add/remove events against a registry state. -/
def runEvents (reg : Registry) : List DeviceEvent → Registry
  | [] => reg
  | e :: rest => runEvents (applyDeviceEvent reg e).1 rest

/-- A *valid event for `id`*: its record passes the handlers' validity
check and carries `id` as its identity. -/
def validEventFor (id : String) (e : DeviceEvent) : Bool :=
  validDevice (eventDevice e) && ((eventDevice e).id == some id)

/-- The most recently processed valid add/remove event for an id, read
off the event sequence as the specification words it. -/
def lastValidFor (id : String) (es : List DeviceEvent) : Option DeviceEvent :=
  es.reverse.find? (validEventFor id)

/-- The call `keyBy(records, '_id')`: fold the snapshot into a fresh object, later
records overwriting earlier ones with the same (coerced) key. -/
def keyByRecords (records : List Device) : Registry :=
  records.foldl (fun acc d => assocInsert acc (keyOfRecord d) d) []

/-- The `ready`-handler registry initialization:
`if (!isEmpty(registeredDevices)) authorizedDevices = keyBy(registeredDevices, '_id')` —
a non-empty snapshot replaces the registry wholesale, an empty one leaves
the prior contents in place. -/
def initRegistryFromSnapshot (reg : Registry) (records : List Device) : Registry :=
  if records.isEmpty then reg else keyByRecords records

/-- A record has a usable identity: a present, non-empty `_id`. -/
def usableIdentity (d : Device) : Bool :=
  !isEmptyIdField d.id

/-- The initialize operation as the specification words it: the registry
contents are fully replaced with one entry per record keyed by the
record's identity field, and records lacking a usable identity are
skipped. -/
def initRegistrySpecModel (records : List Device) : Registry :=
  (records.filter usableIdentity).foldl (fun acc d => assocInsert acc (keyOfRecord d) d) []

theorem assocLookup_insert_self {α : Type} (l : List (String × α)) (key : String) (v : α) :
    assocLookup (assocInsert l key v) key = some v := by
  induction l with
  | nil => simp [assocInsert, assocLookup]
  | cons p rest ih =>
    obtain ⟨k, w⟩ := p
    by_cases hk : k == key
    · simp [assocInsert, assocLookup, hk]
    · simp only [assocInsert, hk, Bool.false_eq_true, if_false]
      simp only [assocLookup, hk, Bool.false_eq_true, if_false]
      exact ih

theorem assocLookup_insert_ne {α : Type} (l : List (String × α)) (key key' : String) (v : α)
    (h : key' ≠ key) :
    assocLookup (assocInsert l key v) key' = assocLookup l key' := by
  have hkk : (key == key') = false := by simpa using Ne.symm h
  induction l with
  | nil => simp [assocInsert, assocLookup, hkk]
  | cons p rest ih =>
    obtain ⟨k, w⟩ := p
    by_cases hk : k == key
    · have hkeq : k = key := by simpa using hk
      subst hkeq
      simp [assocInsert, assocLookup, hkk]
    · simp only [assocInsert, hk, Bool.false_eq_true, if_false]
      by_cases hk' : k == key'
      · simp [assocLookup, hk']
      · simp only [assocLookup, hk', Bool.false_eq_true, if_false]
        exact ih

theorem assocLookup_erase_self {α : Type} (l : List (String × α)) (key : String) :
    assocLookup (assocErase l key) key = none := by
  induction l with
  | nil => simp [assocErase, assocLookup]
  | cons p rest ih =>
    obtain ⟨k, w⟩ := p
    by_cases hk : k == key
    · simpa [assocErase, hk] using ih
    · simpa [assocErase, hk, assocLookup] using ih

theorem assocLookup_erase_ne {α : Type} (l : List (String × α)) (key key' : String)
    (h : key' ≠ key) :
    assocLookup (assocErase l key) key' = assocLookup l key' := by
  induction l with
  | nil => simp [assocErase, assocLookup]
  | cons p rest ih =>
    obtain ⟨k, w⟩ := p
    by_cases hk : k == key
    · have hkey' : (k == key') = false := by
        have hkeq : k = key := by simpa using hk
        rw [hkeq]
        simpa using Ne.symm h
      simpa [assocErase, hk, assocLookup, hkey'] using ih
    · by_cases hk' : k == key'
      · simp [assocErase, hk, assocLookup, hk']
      · simpa [assocErase, hk, assocLookup, hk'] using ih

theorem find?_append {α : Type} (p : α → Bool) (l1 l2 : List α) :
    (l1 ++ l2).find? p =
      (match l1.find? p with
       | some x => some x
       | none => l2.find? p) := by
  induction l1 with
  | nil => simp
  | cons x rest ih =>
    by_cases hx : p x
    · simp [List.find?, hx]
    · have hx' : p x = false := by simpa using hx
      simp [List.find?, hx', ih]

theorem validDevice_id (d : Device) (h : validDevice d = true) :
    ∃ s, d.id = some s ∧ s ≠ "" := by
  unfold validDevice isEmptyIdField at h
  cases hid : d.id with
  | none => rw [hid] at h; simp at h
  | some s =>
    rw [hid] at h
    simp only [Bool.and_eq_true, Bool.not_eq_true'] at h
    exact ⟨s, rfl, by simpa using h.2⟩

theorem validDevice_nonEmpty (d : Device) (h : validDevice d = true) :
    isEmptyDevice d = false := by
  unfold validDevice at h
  simp only [Bool.and_eq_true, Bool.not_eq_true'] at h
  exact h.1

theorem isAuthorizedDevice_applyEvent (reg : Registry) (e : DeviceEvent) (id : String) :
    isAuthorizedDevice (applyDeviceEvent reg e).1 id =
      (if validEventFor id e then isAddEvent e else isAuthorizedDevice reg id) := by
  cases e with
  | add d =>
    by_cases hv : validDevice d
    · obtain ⟨s, hid, hs⟩ := validDevice_id d hv
      have hkey : keyOfRecord d = s := by simp [keyOfRecord, hid]
      by_cases hsid : s = id
      · subst hsid
        have hvef : validEventFor s (.add d) = true := by
          simp [validEventFor, eventDevice, hv, hid]
        rw [hvef]
        simp only [applyDeviceEvent, adddevice, hv, if_true, hkey]
        simp [isAuthorizedDevice, assocLookup_insert_self, isAddEvent,
          validDevice_nonEmpty d hv]
      · have hvef : validEventFor id (.add d) = false := by
          simp [validEventFor, eventDevice, hid, hsid]
        rw [hvef]
        simp only [applyDeviceEvent, adddevice, hv, if_true, hkey, Bool.false_eq_true, if_false]
        have hne : id ≠ s := fun hh => hsid hh.symm
        simp [isAuthorizedDevice, assocLookup_insert_ne reg s id d hne]
    · have hv' : validDevice d = false := by simpa using hv
      have hvef : validEventFor id (.add d) = false := by
        simp [validEventFor, eventDevice, hv']
      rw [hvef]
      simp [applyDeviceEvent, adddevice, hv']
  | remove d =>
    by_cases hv : validDevice d
    · obtain ⟨s, hid, hs⟩ := validDevice_id d hv
      have hkey : keyOfRecord d = s := by simp [keyOfRecord, hid]
      by_cases hsid : s = id
      · subst hsid
        have hvef : validEventFor s (.remove d) = true := by
          simp [validEventFor, eventDevice, hv, hid]
        rw [hvef]
        simp only [applyDeviceEvent, removedevice, hv, if_true, hkey]
        simp [isAuthorizedDevice, assocLookup_erase_self, isAddEvent]
      · have hvef : validEventFor id (.remove d) = false := by
          simp [validEventFor, eventDevice, hid, hsid]
        rw [hvef]
        simp only [applyDeviceEvent, removedevice, hv, if_true, hkey, Bool.false_eq_true, if_false]
        have hne : id ≠ s := fun hh => hsid hh.symm
        simp [isAuthorizedDevice, assocLookup_erase_ne reg s id hne]
    · have hv' : validDevice d = false := by simpa using hv
      have hvef : validEventFor id (.remove d) = false := by
        simp [validEventFor, eventDevice, hv']
      rw [hvef]
      simp [applyDeviceEvent, removedevice, hv']

theorem runEvents_isAuthorized (es : List DeviceEvent) (reg : Registry) (id : String) :
    isAuthorizedDevice (runEvents reg es) id =
      (match lastValidFor id es with
       | some e => isAddEvent e
       | none => isAuthorizedDevice reg id) := by
  induction es generalizing reg with
  | nil => simp [runEvents, lastValidFor, List.find?]
  | cons e rest ih =>
    have hrun : runEvents reg (e :: rest) = runEvents (applyDeviceEvent reg e).1 rest := rfl
    rw [hrun, ih]
    have hlast : lastValidFor id (e :: rest) =
        (match lastValidFor id rest with
         | some x => some x
         | none => if validEventFor id e then some e else none) := by
      unfold lastValidFor
      rw [List.reverse_cons, find?_append]
      cases rest.reverse.find? (validEventFor id) with
      | some x => rfl
      | none =>
        cases hp : validEventFor id e with
        | true => simp [List.find?, hp]
        | false => simp [List.find?, hp]
    rw [hlast]
    cases hl : lastValidFor id rest with
    | some x => rfl
    | none =>
      cases hve : validEventFor id e with
      | true => simp [isAuthorizedDevice_applyEvent, hve]
      | false => simp [isAuthorizedDevice_applyEvent, hve]

theorem assocLookup_keyByFold (records : List Device) (acc : Registry) (k : String) :
    assocLookup (records.foldl (fun a d => assocInsert a (keyOfRecord d) d) acc) k =
      (match records.reverse.find? (fun d => keyOfRecord d == k) with
       | some d => some d
       | none => assocLookup acc k) := by
  induction records generalizing acc with
  | nil => simp
  | cons d rest ih =>
    simp only [List.foldl_cons, List.reverse_cons]
    rw [ih, find?_append]
    cases rest.reverse.find? (fun d => keyOfRecord d == k) with
    | some x => rfl
    | none =>
      cases hp : (keyOfRecord d == k) with
      | true =>
        have hkd : keyOfRecord d = k := by simpa using hp
        subst hkd
        simp [List.find?, hp, assocLookup_insert_self]
      | false =>
        have hne : k ≠ keyOfRecord d := by
          intro hh
          rw [hh] at hp
          simp at hp
        simp [List.find?, hp, assocLookup_insert_ne acc (keyOfRecord d) k d hne]

/-- The runtime configuration the routing pipeline closes over: the three
resolved system topic names and the process-wide qos value. -/
structure Config where
  dataTopic : String
  messageTopic : String
  groupMessageTopic : String
  qos : Int
deriving Repr, DecidableEq

/-- The telemetry parse/validation error text (line 132/134 of the
source). -/
def dataErrText (raw : String) : String :=
  "Invalid data sent. Data must be a valid JSON String. Raw Message: " ++ raw

/-- The direct-message validation error text (lines 157/159). -/
def messageErrText : String :=
  "Invalid message or command. Message must be a valid JSON String with \"target\" and \"message\" fields. \"target\" is a registered Device ID. \"message\" is the payload."

/-- The group-message validation error text (lines 183/185). -/
def groupErrText : String :=
  "Invalid group message or command. Group messages must be a valid JSON String with \"target\" and \"message\" fields. \"target\" is a device group id or name. \"message\" is the payload."

/-- The `server.on('published')` router.  `parsed` is the outcome of the
external `JSON.parse` on `raw` (`none` = parse threw).  The result is
`none` exactly when the handler itself throws: member access
`msg.target` on a parsed `null` raises a TypeError in the message and
group-message branches.  Audit-log records are abbreviated to their
title and the client id. -/
def handlePublished (cfg : Config) (topic raw : String) (parsed : Option Json)
    (clientId : String) : Option (List Effect) :=
  if topic == cfg.dataTopic then
    some (match parsed with
      | none => [Effect.log (dataErrText raw)]
      | some data =>
        if isEmptyJson data then
          [Effect.handleException (dataErrText raw)]
        else
          [Effect.processData clientId raw,
           Effect.publish clientId "Data Received" cfg.qos false none,
           Effect.log ("MQTT Gateway - Data Received. device: " ++ clientId)])
  else if topic == cfg.messageTopic then
    match parsed with
    | none => some [Effect.handleException messageErrText]
    | some msg =>
      if isNullJson msg then none
      else if fieldEmpty msg "target" || fieldEmpty msg "message" then
        some [Effect.handleException messageErrText]
      else
        some [Effect.sendMessageToDevice ((getField msg "target").getD Json.null)
                ((getField msg "message").getD Json.null),
              Effect.publish clientId "Device Message Received" cfg.qos false none,
              Effect.log ("MQTT Gateway - Message Sent. source: " ++ clientId)]
  else if topic == cfg.groupMessageTopic then
    match parsed with
    | none => some [Effect.handleException groupErrText]
    | some msg =>
      if isNullJson msg then none
      else if fieldEmpty msg "target" || fieldEmpty msg "message" then
        some [Effect.handleException groupErrText]
      else
        some [Effect.sendMessageToGroup ((getField msg "target").getD Json.null)
                ((getField msg "message").getD Json.null),
              Effect.publish clientId "Group Message Received" cfg.qos false none,
              Effect.log ("MQTT Gateway - Group Message Sent. source: " ++ clientId)]
  else
    some []

/-- A `message` event from the platform. -/
structure PlatformMessage where
  device : String
  message : String
  messageId : String
deriving Repr, DecidableEq

/-- The `platform.on('message')` handler: publish the payload to the
target device's identity topic, then (in the publish callback) report
success and log. -/
def messageHandler (_reg : Registry) (q : Int) (m : PlatformMessage) : List Effect :=
  [Effect.publish m.device m.message q false (some m.messageId),
   Effect.sendMessageResponse m.messageId "Message Published",
   Effect.log ("Message Published. device: " ++ m.device ++ " messageId: " ++ m.messageId)]

/-- A JavaScript value supplied as `options.qos` on the `ready` event. -/
inductive QosOption where
  | absent
  | num (n : Int)
  | str (s : String)
deriving Repr, DecidableEq

/-- Semantics of `lodash.isempty` on such a value: `undefined` and every number are
empty; a string is empty iff it has no characters. -/
def isEmptyQosOption : QosOption → Bool
  | .absent => true
  | .num _ => true
  | .str s => s == ""

/-- Model of the JavaScript `parseInt` builtin on the values this code
feeds it, restricted to strings beginning with decimal digits: the value
of the longest leading digit run, `none` for `NaN`. -/
def parseIntJs (s : String) : Option Int :=
  let ds := s.toList.takeWhile Char.isDigit
  if ds.isEmpty then none
  else some (Int.ofNat (ds.foldl (fun a c => a * 10 + (c.toNat - 48)) 0))

/-- The qos derivation in the `ready` handler:
`if (options.qos === 0 || isEmpty(options.qos)) qos = 0; else qos = parseInt(options.qos)`.
`none` stands for `NaN`. -/
def qosOf (v : QosOption) : Option Int :=
  if v == QosOption.num 0 || isEmptyQosOption v then some 0
  else
    match v with
    | .num n => some n
    | .str s => parseIntJs s
    | .absent => none

/-- Recognizers over the reified effects, used to state the
no-dispatch / channel-separation properties. -/
def isExceptionEffect : Effect → Bool
  | .handleException _ => true
  | _ => false

def isProcessDataEffect : Effect → Bool
  | .processData _ _ => true
  | _ => false

def isPublishEffect : Effect → Bool
  | .publish _ _ _ _ _ => true
  | _ => false

def isDeviceDispatchEffect : Effect → Bool
  | .sendMessageToDevice _ _ => true
  | _ => false

def isGroupDispatchEffect : Effect → Bool
  | .sendMessageToGroup _ _ => true
  | _ => false

/-- Every publish effect in the list carries the given qos. -/
def allPublishQos (q : Int) (effs : List Effect) : Bool :=
  effs.all (fun e =>
    match e with
    | .publish _ _ q' _ _ => q' == q
    | _ => true)

def isLogEffect : Effect → Bool
  | .log _ => true
  | _ => false

/-- An exception-channel report occurs among the handler's effects. -/
def hasExceptionReport (r : Option (List Effect)) : Bool :=
  match r with
  | none => false
  | some effs => effs.any isExceptionEffect

/-- A log-channel report occurs among the handler's effects. -/
def hasLogReport (r : Option (List Effect)) : Bool :=
  match r with
  | none => false
  | some effs => effs.any isLogEffect

/-- Nothing is dispatched to data ingestion and no acknowledgment is
published. -/
def noIngestionNoAck (r : Option (List Effect)) : Bool :=
  match r with
  | none => true
  | some effs => !(effs.any isProcessDataEffect) && !(effs.any isPublishEffect)

/-- Nothing is dispatched to device messaging or group messaging. -/
def noMessagingDispatch (r : Option (List Effect)) : Bool :=
  match r with
  | none => true
  | some effs => !(effs.any isDeviceDispatchEffect) && !(effs.any isGroupDispatchEffect)

/-- Claim C1: for every client identity and topic string,
`authorizePublish` and `authorizeSubscribe` return the same decision, and
that decision is true iff the client identity is present in the Device
Registry, or the topic equals the client identity, or the topic is a
member of the Authorized Topic Set.  (Stated for well-formed registry
states — all stored records non-empty, as every add-reachable state is —
and topic sets not containing the empty string.) -/
theorem authorize_pub_sub_agree_and_characterize (reg : Registry) (topics : List String)
    (clientId topic : String)
    (hwf : RegistryWF reg = true) (hts : topics.contains "" = false) :
    (authorizePublish reg (keyByIdentity topics) clientId topic).1 =
      (authorizeSubscribe reg (keyByIdentity topics) clientId topic).1 ∧
    (authorizePublish reg (keyByIdentity topics) clientId topic).1 =
      (deviceRegistered reg clientId || topic == clientId || topics.contains topic) := by
  constructor
  · rfl
  · show (isAuthorizedDevice reg clientId || topic == clientId ||
        topicObjAuthorized (keyByIdentity topics) topic) = _
    rw [isAuthorizedDevice_of_wf reg clientId hwf, topicObjAuthorized_keyByIdentity]
    by_cases ht : topic = ""
    · subst ht
      rw [hts]
      simp
    · have ht' : (topic == "") = false := by simpa using ht
      simp [ht']

theorem authorize_pub_sub_agree_and_characterize_witness :
    RegistryWF [("dev1", Device.mk (some "dev1") 0)] = true ∧
    (["shared"].contains "" = false) ∧
    ((authorizePublish [("dev1", Device.mk (some "dev1") 0)] (keyByIdentity ["shared"]) "dev2" "shared").1 =
       (authorizeSubscribe [("dev1", Device.mk (some "dev1") 0)] (keyByIdentity ["shared"]) "dev2" "shared").1 ∧
     (authorizePublish [("dev1", Device.mk (some "dev1") 0)] (keyByIdentity ["shared"]) "dev2" "shared").1 =
       (deviceRegistered [("dev1", Device.mk (some "dev1") 0)] "dev2" || "shared" == "dev2" ||
         ["shared"].contains "shared")) :=
  ⟨by decide, by decide,
    authorize_pub_sub_agree_and_characterize _ _ "dev2" "shared" (by decide) (by decide)⟩

/-- Claim C2: `authorizeForward` is true iff the client identity is
present in the Device Registry; the authorized-topic object and the
packet never influence the decision, and it is never true for an
unregistered client. -/
theorem authorizeForward_registered_only (reg : Registry)
    (topicsObj topicsObj' : List (String × String))
    (clientId packet packet' : String) (hwf : RegistryWF reg = true) :
    (authorizeForward reg topicsObj clientId packet).1 = deviceRegistered reg clientId ∧
    (authorizeForward reg topicsObj clientId packet).1 =
      (authorizeForward reg topicsObj' clientId packet').1 ∧
    (deviceRegistered reg clientId = false →
      (authorizeForward reg topicsObj clientId packet).1 = false) := by
  refine ⟨?_, rfl, ?_⟩
  · show isAuthorizedDevice reg clientId = _
    exact isAuthorizedDevice_of_wf reg clientId hwf
  · intro hun
    show isAuthorizedDevice reg clientId = false
    rw [isAuthorizedDevice_of_wf reg clientId hwf]
    exact hun

theorem authorizeForward_registered_only_witness :
    RegistryWF [("dev1", Device.mk (some "dev1") 0)] = true ∧
    ((authorizeForward [("dev1", Device.mk (some "dev1") 0)] (keyByIdentity ["shared"]) "dev2" "pkt").1 =
       deviceRegistered [("dev1", Device.mk (some "dev1") 0)] "dev2" ∧
     (authorizeForward [("dev1", Device.mk (some "dev1") 0)] (keyByIdentity ["shared"]) "dev2" "pkt").1 =
       (authorizeForward [("dev1", Device.mk (some "dev1") 0)] [] "dev2" "pkt2").1 ∧
     (deviceRegistered [("dev1", Device.mk (some "dev1") 0)] "dev2" = false →
       (authorizeForward [("dev1", Device.mk (some "dev1") 0)] (keyByIdentity ["shared"]) "dev2" "pkt").1 = false)) :=
  ⟨by decide, authorizeForward_registered_only _ _ [] "dev2" "pkt" "pkt2" (by decide)⟩

/-- Claim C3: starting from the initial empty registry, after any
sequence of add/remove events an id is authorized iff the most recently
processed valid add/remove event carrying that id was an add (and not
followed by a remove for it). -/
theorem isAuthorized_iff_last_valid_event_add (es : List DeviceEvent) (id : String) :
    isAuthorizedDevice (runEvents [] es) id =
      (match lastValidFor id es with
       | some e => isAddEvent e
       | none => false) := by
  rw [runEvents_isAuthorized]
  cases lastValidFor id es with
  | some e => rfl
  | none => rfl

/-- Claim C8: an `adddevice` event with an empty record or an empty
identity reports a validation failure to the error channel and leaves
the registry entirely unchanged (same entries, same size). -/
theorem adddevice_invalid_no_mutation (reg : Registry) (d : Device)
    (h : validDevice d = false) :
    (adddevice reg d).1 = reg ∧
    (adddevice reg d).2 = [Effect.handleException "Device data invalid. Device not added."] ∧
    (adddevice reg d).1.length = reg.length := by
  simp [adddevice, h]

theorem adddevice_invalid_no_mutation_witness :
    validDevice (Device.mk (some "") 3) = false ∧
    ((adddevice [("dev1", Device.mk (some "dev1") 0)] (Device.mk (some "") 3)).1 =
       [("dev1", Device.mk (some "dev1") 0)] ∧
     (adddevice [("dev1", Device.mk (some "dev1") 0)] (Device.mk (some "") 3)).2 =
       [Effect.handleException "Device data invalid. Device not added."] ∧
     (adddevice [("dev1", Device.mk (some "dev1") 0)] (Device.mk (some "") 3)).1.length =
       [("dev1", Device.mk (some "dev1") 0)].length) :=
  ⟨by decide, adddevice_invalid_no_mutation _ _ (by decide)⟩

/-- Claim C10: a platform `message` event publishes the payload to the
target device's identity topic at the configured qos, retain false, then
reports success for the message id — independently of the Device
Registry, hence also for unregistered target identities. -/
theorem message_event_publishes_unconditionally (reg reg' : Registry) (q : Int)
    (m : PlatformMessage) :
    messageHandler reg q m = messageHandler reg' q m ∧
    messageHandler reg q m =
      [Effect.publish m.device m.message q false (some m.messageId),
       Effect.sendMessageResponse m.messageId "Message Published",
       Effect.log ("Message Published. device: " ++ m.device ++ " messageId: " ++ m.messageId)] ∧
    (isAuthorizedDevice reg m.device = false →
      messageHandler reg q m =
        [Effect.publish m.device m.message q false (some m.messageId),
         Effect.sendMessageResponse m.messageId "Message Published",
         Effect.log ("Message Published. device: " ++ m.device ++ " messageId: " ++ m.messageId)]) :=
  ⟨rfl, rfl, fun _ => rfl⟩

theorem message_event_publishes_unconditionally_witness :
    isAuthorizedDevice [] "devX" = false ∧
    messageHandler [] 2 (PlatformMessage.mk "devX" "hello" "m1") =
      [Effect.publish "devX" "hello" 2 false (some "m1"),
       Effect.sendMessageResponse "m1" "Message Published",
       Effect.log "Message Published. device: devX messageId: m1"] :=
  ⟨rfl,
    (message_event_publishes_unconditionally [] [("a", Device.mk (some "a") 0)] 2
      (PlatformMessage.mk "devX" "hello" "m1")).2.2 rfl⟩

/-- Claim C4 (counterexample): a snapshot containing a record without a
usable identity is NOT skipped — `keyBy` stores it under the coerced
property key `"undefined"` — so the registry after initialization
differs from the registry the claim describes. -/
theorem init_does_not_skip_counterexample :
    initRegistryFromSnapshot [] [Device.mk none 1] ≠ initRegistrySpecModel [Device.mk none 1] ∧
    initRegistryFromSnapshot [] [Device.mk none 1] = [("undefined", Device.mk none 1)] ∧
    initRegistrySpecModel [Device.mk none 1] = [] ∧
    deviceRegistered (initRegistryFromSnapshot [] [Device.mk none 1]) "undefined" = true := by
  decide

/-- Claim C4 (amended): a non-empty snapshot fully replaces the registry
contents — the entry found for a key is exactly the last snapshot record
whose coerced identity key (`"undefined"` when the `_id` field is
missing) equals it, independent of the prior contents — while an empty
snapshot leaves the prior contents unchanged; records lacking a usable
identity are stored under their coerced key, not skipped. -/
theorem initRegistry_lookup_characterization (reg : Registry) (records : List Device)
    (k : String) :
    assocLookup (initRegistryFromSnapshot reg records) k =
      (if records.isEmpty then assocLookup reg k
       else records.reverse.find? (fun d => keyOfRecord d == k)) := by
  unfold initRegistryFromSnapshot keyByRecords
  cases hrec : records.isEmpty with
  | true => simp
  | false =>
    simp only [Bool.false_eq_true, if_false]
    rw [assocLookup_keyByFold]
    cases records.reverse.find? (fun d => keyOfRecord d == k) with
    | some d => rfl
    | none => rfl

/-- Claim C5: a publish on the data topic whose payload parses to a
non-empty JSON document first dispatches the client id with the raw
payload to data ingestion, then publishes "Data Received" to the topic
named by the client id at the configured qos, non-retained. -/
theorem data_topic_success_route (cfg : Config) (raw clientId : String) (j : Json)
    (hj : isEmptyJson j = false) :
    handlePublished cfg cfg.dataTopic raw (some j) clientId =
      some [Effect.processData clientId raw,
            Effect.publish clientId "Data Received" cfg.qos false none,
            Effect.log ("MQTT Gateway - Data Received. device: " ++ clientId)] := by
  unfold handlePublished
  simp [hj]

theorem data_topic_success_route_witness :
    isEmptyJson (Json.obj [("temp", Json.num 21)]) = false ∧
    handlePublished (Config.mk "data" "message" "groupmessage" 1) "data" "\x7b\"temp\":21\x7d"
        (some (Json.obj [("temp", Json.num 21)])) "dev1" =
      some [Effect.processData "dev1" "\x7b\"temp\":21\x7d",
            Effect.publish "dev1" "Data Received" 1 false none,
            Effect.log "MQTT Gateway - Data Received. device: dev1"] :=
  ⟨rfl, data_topic_success_route (Config.mk "data" "message" "groupmessage" 1)
    "\x7b\"temp\":21\x7d" "dev1" (Json.obj [("temp", Json.num 21)]) rfl⟩

/-- Claim C6: on the data topic, a payload that fails to parse is
reported to the log channel only (no exception-channel report), while a
payload parsing to an empty document is reported to the exception
channel; in both cases nothing is dispatched to data ingestion and no
acknowledgment is published. -/
theorem data_topic_failure_channels (cfg : Config) (raw clientId : String) (j : Json)
    (hj : isEmptyJson j = true) :
    handlePublished cfg cfg.dataTopic raw none clientId = some [Effect.log (dataErrText raw)] ∧
    hasExceptionReport (handlePublished cfg cfg.dataTopic raw none clientId) = false ∧
    hasLogReport (handlePublished cfg cfg.dataTopic raw none clientId) = true ∧
    handlePublished cfg cfg.dataTopic raw (some j) clientId =
      some [Effect.handleException (dataErrText raw)] ∧
    hasExceptionReport (handlePublished cfg cfg.dataTopic raw (some j) clientId) = true ∧
    noIngestionNoAck (handlePublished cfg cfg.dataTopic raw none clientId) = true ∧
    noIngestionNoAck (handlePublished cfg cfg.dataTopic raw (some j) clientId) = true := by
  have h1 : handlePublished cfg cfg.dataTopic raw none clientId =
      some [Effect.log (dataErrText raw)] := by
    unfold handlePublished
    simp
  have h2 : handlePublished cfg cfg.dataTopic raw (some j) clientId =
      some [Effect.handleException (dataErrText raw)] := by
    unfold handlePublished
    simp [hj]
  refine ⟨h1, ?_, ?_, h2, ?_, ?_, ?_⟩
  · rw [h1]; rfl
  · rw [h1]; rfl
  · rw [h2]; rfl
  · rw [h1]; rfl
  · rw [h2]; rfl

theorem data_topic_failure_channels_witness :
    isEmptyJson (Json.obj []) = true ∧
    (handlePublished (Config.mk "data" "message" "groupmessage" 0) "data" "\x7b\x7d" none "dev1" =
       some [Effect.log (dataErrText "\x7b\x7d")] ∧
     hasExceptionReport (handlePublished (Config.mk "data" "message" "groupmessage" 0) "data" "\x7b\x7d" none "dev1") = false ∧
     hasLogReport (handlePublished (Config.mk "data" "message" "groupmessage" 0) "data" "\x7b\x7d" none "dev1") = true ∧
     handlePublished (Config.mk "data" "message" "groupmessage" 0) "data" "\x7b\x7d"
         (some (Json.obj [])) "dev1" =
       some [Effect.handleException (dataErrText "\x7b\x7d")] ∧
     hasExceptionReport (handlePublished (Config.mk "data" "message" "groupmessage" 0) "data" "\x7b\x7d"
         (some (Json.obj [])) "dev1") = true ∧
     noIngestionNoAck (handlePublished (Config.mk "data" "message" "groupmessage" 0) "data" "\x7b\x7d" none "dev1") = true ∧
     noIngestionNoAck (handlePublished (Config.mk "data" "message" "groupmessage" 0) "data" "\x7b\x7d"
         (some (Json.obj [])) "dev1") = true) :=
  ⟨rfl, data_topic_failure_channels (Config.mk "data" "message" "groupmessage" 0)
    "\x7b\x7d" "dev1" (Json.obj []) rfl⟩

/-- Claim C7: on the direct-message and group-message topics, a payload
that fails to parse, or parses (to a non-null document) with an
empty/missing `target` or `message` field, produces an exception-channel
report with the channel's required-fields message, and nothing is
dispatched to device messaging or group messaging.  (Stated for
configurations whose three system topics are pairwise distinct.) -/
theorem message_topics_validation_failures (cfg : Config) (raw clientId : String) (j : Json)
    (hmd : (cfg.messageTopic == cfg.dataTopic) = false)
    (hgd : (cfg.groupMessageTopic == cfg.dataTopic) = false)
    (hgm : (cfg.groupMessageTopic == cfg.messageTopic) = false)
    (hnull : isNullJson j = false)
    (hbad : (fieldEmpty j "target" || fieldEmpty j "message") = true) :
    handlePublished cfg cfg.messageTopic raw none clientId =
      some [Effect.handleException messageErrText] ∧
    handlePublished cfg cfg.messageTopic raw (some j) clientId =
      some [Effect.handleException messageErrText] ∧
    handlePublished cfg cfg.groupMessageTopic raw none clientId =
      some [Effect.handleException groupErrText] ∧
    handlePublished cfg cfg.groupMessageTopic raw (some j) clientId =
      some [Effect.handleException groupErrText] ∧
    noMessagingDispatch (handlePublished cfg cfg.messageTopic raw none clientId) = true ∧
    noMessagingDispatch (handlePublished cfg cfg.messageTopic raw (some j) clientId) = true ∧
    noMessagingDispatch (handlePublished cfg cfg.groupMessageTopic raw none clientId) = true ∧
    noMessagingDispatch (handlePublished cfg cfg.groupMessageTopic raw (some j) clientId) = true := by
  have h1 : handlePublished cfg cfg.messageTopic raw none clientId =
      some [Effect.handleException messageErrText] := by
    unfold handlePublished
    simp [hmd]
  have h2 : handlePublished cfg cfg.messageTopic raw (some j) clientId =
      some [Effect.handleException messageErrText] := by
    unfold handlePublished
    simp [hmd, hnull, hbad]
  have h3 : handlePublished cfg cfg.groupMessageTopic raw none clientId =
      some [Effect.handleException groupErrText] := by
    unfold handlePublished
    simp [hgd, hgm]
  have h4 : handlePublished cfg cfg.groupMessageTopic raw (some j) clientId =
      some [Effect.handleException groupErrText] := by
    unfold handlePublished
    simp [hgd, hgm, hnull, hbad]
  refine ⟨h1, h2, h3, h4, ?_, ?_, ?_, ?_⟩
  · rw [h1]; rfl
  · rw [h2]; rfl
  · rw [h3]; rfl
  · rw [h4]; rfl

theorem message_topics_validation_failures_witness :
    (("message" : String) == "data") = false ∧
    isNullJson (Json.obj [("target", Json.str "dev1")]) = false ∧
    (fieldEmpty (Json.obj [("target", Json.str "dev1")]) "target" ||
      fieldEmpty (Json.obj [("target", Json.str "dev1")]) "message") = true ∧
    (handlePublished (Config.mk "data" "message" "groupmessage" 0) "message" "\x7b\"target\":\"dev1\"\x7d"
        (some (Json.obj [("target", Json.str "dev1")])) "dev1" =
      some [Effect.handleException messageErrText] ∧
     noMessagingDispatch (handlePublished (Config.mk "data" "message" "groupmessage" 0) "message"
        "\x7b\"target\":\"dev1\"\x7d" (some (Json.obj [("target", Json.str "dev1")])) "dev1") = true) :=
  ⟨by decide, by decide, by decide,
    (message_topics_validation_failures (Config.mk "data" "message" "groupmessage" 0)
        "\x7b\"target\":\"dev1\"\x7d" "dev1" (Json.obj [("target", Json.str "dev1")])
        (by decide) (by decide) (by decide) (by decide) (by decide)).2.1,
    (message_topics_validation_failures (Config.mk "data" "message" "groupmessage" 0)
        "\x7b\"target\":\"dev1\"\x7d" "dev1" (Json.obj [("target", Json.str "dev1")])
        (by decide) (by decide) (by decide) (by decide) (by decide)).2.2.2.2.2.1⟩

/-- Claim C9 (counterexample): supplying the integer 1 as the
quality-of-service option yields a process-wide qos of 0, not 1 — every
number is "empty" under the emptiness check guarding the assignment. -/
theorem qos_numeric_option_counterexample :
    qosOf (QosOption.num 1) = some 0 ∧ ¬ qosOf (QosOption.num 1) = some 1 := by
  decide

theorem handlePublished_allPublishQos (cfg : Config) (topic raw : String)
    (parsed : Option Json) (clientId : String) (effs : List Effect)
    (h : handlePublished cfg topic raw parsed clientId = some effs) :
    allPublishQos cfg.qos effs = true := by
  unfold handlePublished at h
  repeat' split at h
  all_goals first
    | (simp at h
       done)
    | (injection h with h2
       subst h2
       simp [allPublishQos])

/-- Claim C9 (amended): the process-wide qos is 0 whenever the
`options.qos` value is absent or any number (including 0), and is
`parseInt` of the value when it is a non-empty string (so "1" yields 1
and "2" yields 2); this single configured value is applied uniformly to
every acknowledgment publish the engine issues. -/
theorem qos_derivation_and_uniform_application (n : Int) (s : String) (cfg : Config)
    (topic raw clientId : String) (parsed : Option Json)
    (reg : Registry) (q : Int) (m : PlatformMessage) (hs : s ≠ "") :
    qosOf (QosOption.num n) = some 0 ∧
    qosOf QosOption.absent = some 0 ∧
    qosOf (QosOption.str s) = parseIntJs s ∧
    qosOf (QosOption.str "1") = some 1 ∧
    qosOf (QosOption.str "2") = some 2 ∧
    (match handlePublished cfg topic raw parsed clientId with
     | none => true
     | some effs => allPublishQos cfg.qos effs) = true ∧
    allPublishQos q (messageHandler reg q m) = true := by
  refine ⟨?_, by decide, ?_, by decide, by decide, ?_, by simp [allPublishQos, messageHandler]⟩
  · simp [qosOf, isEmptyQosOption]
  · have h1 : (QosOption.str s == QosOption.num 0) = false := by simp
    have h2 : isEmptyQosOption (QosOption.str s) = false := by
      simp [isEmptyQosOption, hs]
    simp [qosOf, h1, h2]
  · cases hr : handlePublished cfg topic raw parsed clientId with
    | none => rfl
    | some effs =>
      simpa using handlePublished_allPublishQos cfg topic raw parsed clientId effs hr

theorem qos_derivation_and_uniform_application_witness :
    ("1" : String) ≠ "" ∧
    (qosOf (QosOption.num 7) = some 0 ∧
     qosOf QosOption.absent = some 0 ∧
     qosOf (QosOption.str "1") = parseIntJs "1" ∧
     qosOf (QosOption.str "1") = some 1 ∧
     qosOf (QosOption.str "2") = some 2 ∧
     (match handlePublished (Config.mk "data" "message" "groupmessage" 1) "data" "\x7b\"temp\":21\x7d"
          (some (Json.obj [("temp", Json.num 21)])) "dev1" with
      | none => true
      | some effs => allPublishQos (Config.mk "data" "message" "groupmessage" 1).qos effs) = true ∧
     allPublishQos 1 (messageHandler [] 1 (PlatformMessage.mk "dev1" "hi" "m1")) = true) :=
  ⟨by decide,
    qos_derivation_and_uniform_application 7 "1" (Config.mk "data" "message" "groupmessage" 1)
      "data" "\x7b\"temp\":21\x7d" "dev1" (some (Json.obj [("temp", Json.num 21)]))
      [] 1 (PlatformMessage.mk "dev1" "hi" "m1") (by decide)⟩
